import Mathlib

/-!
Shallow embedding of the Venso mobile client's date/time conversion, fetch
timeout, request headers, booking filtering, service image fallback and
booking submission logic, translated from the TypeScript sources under
`src/src` and `src/unnamed/part_007`.
-/

/-- JavaScript truthiness of an optional string: `undefined`/`null` and the
empty string are falsy (used by guards such as `if (!user?.id)` in
`ServiceDetailsScreen.tsx`). -/
def jsFalsyStr : Option String → Bool
  | none => true
  | some s => s == ""

/-- ASCII whitespace, the model of the regex class `\s` and of the characters
removed by `String.prototype.trim`. -/
def jsWhitespace (c : Char) : Bool :=
  c == ' ' || c == '\t' || c == '\n' || c == '\r' || c == Char.ofNat 11 || c == Char.ofNat 12

/-- `toLowerCase()` (ASCII model). -/
def jsToLower (s : String) : String := String.mk (s.data.map Char.toLower)

/-- `trim()`: strip leading and trailing whitespace. -/
def jsTrim (s : String) : String :=
  String.mk (((s.data.dropWhile jsWhitespace).reverse.dropWhile jsWhitespace).reverse)

/-- Split a character list at the first occurrence of `sep`, returning the
parts before and after it, or `none` when `sep` does not occur. -/
def breakOnSep (sep : List Char) : List Char → Option (List Char × List Char)
  | [] => if sep.isEmpty then some ([], []) else none
  | c :: t =>
    if sep.isPrefixOf (c :: t) then some ([], (c :: t).drop sep.length)
    else
      match breakOnSep sep t with
      | some (pre, post) => some (c :: pre, post)
      | none => none

/-- Split a character list on every occurrence of the separator character. -/
def splitOnChar (sep : Char) : List Char → List (List Char)
  | [] => [[]]
  | c :: t =>
    if c == sep then [] :: splitOnChar sep t
    else
      match splitOnChar sep t with
      | [] => [[c]]
      | h :: rest => (c :: h) :: rest

/-- `array.join(' ')` on character lists. -/
def joinSpace : List (List Char) → List Char
  | [] => []
  | [s] => s
  | s :: rest => s ++ ' ' :: joinSpace rest

/-- Offset-correcting loop of `zonedWallTimeToUtcIso`
(`src/src/screens/ServiceDetailsScreen.tsx` lines 131-140). `naive` is
`Date.UTC(year, month - 1, day, hour, minute, 0)`, the naive UTC reading of the
parsed wall-clock components; `ofn` models `getTimeZoneOffsetMinutes` (the
zone's offset in minutes at a given UTC epoch-millisecond instant, as reported
by `Intl.DateTimeFormat`). Each round recomputes `naive` minus the offset at the
current guess and stops early when successive guesses differ by less than
1000 ms; the source runs at most 3 rounds. -/
def zonedLoop (naive : Int) (ofn : Int → Int) : Nat → Int → Int
  | 0, guess => guess
  | n + 1, guess =>
    let adjusted := naive - ofn guess * 60000
    if (adjusted - guess).natAbs < 1000 then adjusted else zonedLoop naive ofn n adjusted

/-- Main body of `zonedWallTimeToUtcIso` for finite numeric components, on
epoch milliseconds. -/
def zonedWallTimeToUtcMs (naive : Int) (ofn : Int → Int) : Int :=
  zonedLoop naive ofn 3 naive

/-- Model of `addMinutesIso` (`ServiceDetailsScreen.tsx` line 145) on the epoch
milliseconds reading of the ISO string. -/
def addMinutesIsoMs (isoMs minutes : Int) : Int := isoMs + minutes * 60000

/-- JavaScript number as relevant to the timeout configuration: `NaN` and the
infinities are the non-finite values; finite values are modelled as integer
milliseconds. -/
inductive JSNum where
  | nan
  | posInf
  | negInf
  | fin (v : Int)
  deriving DecidableEq

/-- Abort decision of `fetchWithTimeout` (`src/src/lib/trpc.ts` lines 12-35):
when `timeoutMs` is finite and positive the wrapper arms an `AbortController`
whose timer fires after `timeoutMs`, so a request still in flight at that point
is aborted by the wrapper itself; when `timeoutMs` is non-finite or `<= 0` the
wrapper falls back to a plain `fetch` and never aborts. Aborts propagated from
the caller's upstream signal are not counted here: they are not on the
wrapper's own initiative. -/
def fetchWithTimeoutAborts (timeoutMs : JSNum) (requestDurationMs : Int) : Bool :=
  match timeoutMs with
  | .fin v => if v ≤ 0 then false else decide (v ≤ requestDurationMs)
  | _ => false

/-- Default timeout of the wrapper:
`Number(process.env.EXPO_PUBLIC_TRPC_TIMEOUT_MS ?? '15000')` with the
environment variable unset. -/
def defaultTrpcTimeoutMs : Int := 15000

/-- Request headers function of the `httpBatchLink` in `createTrpcClient`
(`src/src/lib/trpc.ts` lines 61-69), over the auth store's `accessToken`. -/
def trpcHeaders (accessToken : Option String) : List (String × String) :=
  if jsFalsyStr accessToken then []
  else [("Authorization", "Bearer " ++ accessToken.getD "")]

/-- Argument of `formatCurrency`: `undefined`, `null`, a non-finite number, or
a finite number (modelled as a rational). -/
inductive JSAmount where
  | undef
  | nullv
  | nan
  | posInf
  | negInf
  | num (q : ℚ)

/-- Model of `formatCurrency` (`src/src/utils/formatCurrency.ts`). Arguments
that are not finite numbers take the early-return branch; finite amounts are
rendered through `amount.toLocaleString('en-MY', ...)`, kept abstract as the
`render` parameter. The early-return string literal in the source file is the
three characters U+00E2 U+20AC U+201D (a double-encoded em dash), reproduced
here byte for byte. -/
def formatCurrency (render : ℚ → String) : JSAmount → String
  | .num q => "RM " ++ render q
  | _ => "â€”"

/-- Press behaviour of a day item in the booking modal's 30-day strip
(`ServiceDetailsScreen.tsx` lines 697-727): the item is `disabled` and its
handler guarded by `!isPast` where `isPast` is `ymd < todayYmd` on the local
`YYYY-MM-DD` strings, so a past day leaves `selectedDate` unchanged and any
other day sets it to `ymd`. -/
def dayStripPress (todayYmd ymd : String) (selectedDate : Option String) : Option String :=
  if ymd.data < todayYmd.data then selectedDate else some ymd

/-- JavaScript `String.prototype.includes` on character lists: the needle
occurs as a contiguous block somewhere in the haystack. -/
def listContainsSub (needle : List Char) : List Char → Bool
  | [] => needle.isEmpty
  | c :: t => needle.isPrefixOf (c :: t) || listContainsSub needle t

/-- `hay.includes(needle)` for strings. -/
def strContainsSub (hay needle : String) : Bool := listContainsSub needle.data hay.data

/-- `array.filter(Boolean)` on an array of possibly-undefined strings: drops
`undefined` and the empty string (both falsy). -/
def jsFilterBoolean (l : List (Option String)) : List String :=
  l.filterMap (fun o => o.bind (fun s => if s == "" then none else some s))

/-- Booking list row as consumed by `BookingsScreen` (`src/unnamed/part_007`);
the nested optional objects (`service?.name`, `event?.name`,
`vendorCompany?.name`, `customerUser?.email`) are flattened to the single field
each access reads. -/
structure BookingListItem where
  id : String
  bookingNo : Option String := none
  status : Option String := none
  serviceName : Option String := none
  eventName : Option String := none
  vendorCompanyName : Option String := none
  customerEmail : Option String := none
  deriving DecidableEq

/-- `(item.status ?? '').toLowerCase()` (`part_007` line 80). -/
def normalizedStatusOf (item : BookingListItem) : String := jsToLower (item.status.getD "")

/-- Status criterion of `filteredBookings` (`part_007` lines 81-82). -/
def matchesStatus (statusFilter : String) (item : BookingListItem) : Bool :=
  if statusFilter == "all" then true
  else
    normalizedStatusOf item == statusFilter ||
      (statusFilter == "cancelled" &&
        (normalizedStatusOf item == "canceled" || normalizedStatusOf item == "cancelled"))

/-- Search haystack of `filteredBookings` (`part_007` lines 87-98): the listed
fields, with falsy entries dropped, joined by single spaces and lower-cased. -/
def haystackOf (item : BookingListItem) : String :=
  jsToLower (String.mk (joinSpace ((jsFilterBoolean
    [item.bookingNo, some item.id, item.status, item.serviceName,
     item.eventName, item.vendorCompanyName, item.customerEmail]).map String.data)))

/-- Per-item predicate of `filteredBookings` (`part_007` lines 79-101). -/
def bookingPasses (statusFilter normalizedSearch : String) (item : BookingListItem) : Bool :=
  if !matchesStatus statusFilter item then false
  else if normalizedSearch == "" then true
  else strContainsSub (haystackOf item) normalizedSearch

/-- `filteredBookings` (`part_007` lines 76-102): filter the bookings by status
and by the trimmed lower-cased search text. -/
def filteredBookings (bookings : List BookingListItem) (search statusFilter : String) :
    List BookingListItem :=
  bookings.filter (bookingPasses statusFilter (jsToLower (jsTrim search)))

/-- Hostname of a URL in the sense of `new URL(raw).hostname`: requires a
nonempty scheme before `://`, takes the authority up to the first `/`, `?`,
`#` or `:` and lower-cases it; strings the URL constructor would reject are
modelled as `none` (the source wraps each use in try/catch). -/
def hostOf (url : String) : Option String :=
  match breakOnSep "://".data url.data with
  | none => none
  | some (scheme, after) =>
    if scheme.isEmpty then none
    else
      let host := after.takeWhile (fun c => !(c == '/' || c == '?' || c == '#' || c == ':'))
      if host.isEmpty then none else some (String.mk (host.map Char.toLower))

/-- Value of the `text` query parameter as read by
`parsed.searchParams.get('text')`: the query string is the part after the first
`?`, parameters split on `&`, and the first parameter whose key is `text` is
returned. Percent-decoding is not modelled. -/
def textParam (url : String) : Option String :=
  match breakOnSep "?".data url.data with
  | none => none
  | some (_, query) =>
    (splitOnChar '&' query).findSome? (fun kv =>
      match breakOnSep "=".data kv with
      | some (k, v) => if k = "text".data then some (String.mk v) else none
      | none => if kv = "text".data then some "" else none)

/-- `normalizePlaceholderCoUrl` (`src/src/lib/serviceImages.ts` lines 21-36).
Re-setting the `text` search parameter to its own value and serialising with
`URL.toString()` is modelled as the identity on the already-canonical URL
string; every other branch returns the input unchanged in the source as well. -/
def normalizePlaceholderCoUrl (rawUrl : String) : String :=
  match hostOf rawUrl with
  | none => rawUrl
  | some h =>
    if h != "placehold.co" then rawUrl
    else
      match textParam rawUrl with
      | none => rawUrl
      | some t => if t == "" then rawUrl else rawUrl

/-- `safeImageUrl` (`serviceImages.ts` lines 38-43): falsy input and
whitespace-only input give `undefined`; otherwise the trimmed URL is
normalised. -/
def safeImageUrl (rawUrl : Option String) : Option String :=
  match rawUrl with
  | none => none
  | some r =>
    if r == "" then none
    else
      let trimmed := jsTrim r
      if trimmed == "" then none else some (normalizePlaceholderCoUrl trimmed)

/-- Match of `photo\s*booth` starting at the head of the character list. -/
def photoBoothAt (cs : List Char) : Bool :=
  "photo".data.isPrefixOf cs && "booth".data.isPrefixOf ((cs.drop 5).dropWhile jsWhitespace)

/-- Existence of a match of `p` at some position in the list (regex `test`). -/
def existsMatchAt (p : List Char → Bool) : List Char → Bool
  | [] => p []
  | c :: t => p (c :: t) || existsMatchAt p t

/-- Test of the regex `photo\s*booth` with the `i` flag against a name. -/
def matchPhotoBooth (name : String) : Bool := existsMatchAt photoBoothAt (jsToLower name).data

/-- Test of `video(graphy)?|videographer` with the `i` flag: the optional group
never affects whether a match exists, so the test holds exactly when the name
contains `video` or `videographer` (the latter is subsumed by the former). -/
def matchVideo (name : String) : Bool :=
  strContainsSub (jsToLower name) "video" || strContainsSub (jsToLower name) "videographer"

/-- Test of `photo(graphy)?|photographer` with the `i` flag. -/
def matchPhoto (name : String) : Bool :=
  strContainsSub (jsToLower name) "photo" || strContainsSub (jsToLower name) "photographer"

/-- `FALLBACK_IMAGES` (`serviceImages.ts` lines 6-19): category patterns paired
with their fallback URLs, in source order. -/
def fallbackImages : List ((String → Bool) × String) :=
  [(matchPhotoBooth,
    "https://images.unsplash.com/photo-1529694157877-6f8bfc48757f?auto=format&fit=crop&w=1200&q=80"),
   (matchVideo,
    "https://images.unsplash.com/photo-1516035069371-29a1b244cc32?auto=format&fit=crop&w=1200&q=80"),
   (matchPhoto,
    "https://images.unsplash.com/photo-1452587925148-ce544e77e70d?auto=format&fit=crop&w=1200&q=80")]

/-- `FALLBACK_IMAGES.find((item) => item.match.test(name))?.url`. -/
def fallbackFor (name : String) : Option String :=
  (fallbackImages.find? (fun entry => entry.1 name)).map (fun entry => entry.2)

/-- Input shape of `getServiceImages` (`serviceImages.ts` lines 1-4). -/
structure ServiceImageSource where
  name : Option String := none
  images : Option (List String) := none
  deriving DecidableEq

/-- `(service.images ?? []).map(safeImageUrl).filter(Boolean)`: the usable
image URLs of a service. -/
def usableImages (service : ServiceImageSource) : List String :=
  jsFilterBoolean ((service.images.getD []).map (fun u => safeImageUrl (some u)))

/-- `getServiceImages` (`serviceImages.ts` lines 45-70). -/
def getServiceImages (service : ServiceImageSource) : List String :=
  let images := usableImages service
  let fallback := fallbackFor (service.name.getD "")
  let shouldPreferFallback :=
    !images.isEmpty &&
      (match images with
       | [] => false
       | first :: _ => decide (hostOf first = some "placehold.co")) &&
      fallback.isSome
  if shouldPreferFallback then fallback.toList
  else if !images.isEmpty then images
  else fallback.toList

/-- Fixed Unsplash image used by the service-details gallery when
`getServiceImages` returns no images (`ServiceDetailsScreen.tsx` line 243). -/
def unsplashHotelFallback : String :=
  "https://images.unsplash.com/photo-1566073771259-6a8506099945?auto=format&fit=crop&w=1200&q=80"

/-- `gallery` memo of `ServiceDetailsScreen` (lines 239-244): the service's
images when nonempty, else the fixed Unsplash placeholder. -/
def galleryOf (service : Option ServiceImageSource) : List String :=
  let images := match service with | some s => getServiceImages s | none => []
  if images.length == 0 then [unsplashHotelFallback] else images

/-- Availability window of a day (`ServiceDetailsScreen.tsx` lines 53-57). -/
structure BookingWindow where
  startAt : String
  endAt : String
  deriving DecidableEq

/-- Availability entry for a calendar day (`ServiceDetailsScreen.tsx` lines
53-57). -/
structure AvailabilityItem where
  date : String
  available : Bool
  windows : Option (List BookingWindow) := none
  deriving DecidableEq

/-- JavaScript truthiness of `Map.get`'s result: a present entry is an object
and hence truthy regardless of its fields; only `undefined` (absent) is
falsy. -/
def jsTruthyObj {α : Type} : Option α → Bool := Option.isSome

/-- Guard `availabilityByDate.has(selectedDate) &&
!availabilityByDate.get(selectedDate)` (`ServiceDetailsScreen.tsx` line 362),
with the map modelled by its lookup function. -/
def unavailableGuard (byDate : String → Option AvailabilityItem) (d : String) : Bool :=
  jsTruthyObj (byDate d) && !jsTruthyObj (byDate d)

/-- Navigation performed after a successful booking
(`ServiceDetailsScreen.tsx` lines 399-403). -/
inductive NavTarget where
  | bookingDetails (bookingId : String)
  | bookings
  deriving DecidableEq

/-- Observable outcome of one run of `submitBooking`: the alert raised (title,
body) if any, whether `setBookingModalOpen(false)` was reached, and the
navigation target if any. -/
structure SubmitResult where
  alert : Option (String × String)
  closedModal : Bool
  nav : Option NavTarget
  deriving DecidableEq

/-- Error thrown by a rejected mutation; `message` may be absent. -/
structure JsError where
  message : Option String := none
  deriving DecidableEq

/-- Resolved value of `createBooking.mutateAsync`, with `bookingId` the first
defined of `createdBooking?.id ?? createdBooking?.data?.id ??
createdBooking?.result?.data?.id ?? createdBooking?.booking?.id`. -/
structure CreatedBooking where
  bookingId : Option String := none
  deriving DecidableEq

/-- `availability?.windows?.find((w) => w.startAt === selectedSlotId)`
(`ServiceDetailsScreen.tsx` lines 368-369). -/
def findBookingWindow (byDate : String → Option AvailabilityItem)
    (selectedDate : Option String) (selectedSlotId : String) : Option BookingWindow :=
  (((byDate (selectedDate.getD "")).bind AvailabilityItem.windows).getD []).find?
    (fun w => w.startAt == selectedSlotId)

/-- `submitBooking` (`ServiceDetailsScreen.tsx` lines 339-407): the guard
cascade, the availability check, the window lookup, and the try/catch around
the `createBooking` call, whose awaited outcome is `createResult`. -/
def submitBooking (userId serviceId vendorCompanyId : Option String)
    (hasSelectedEvent : Bool) (selectedDate : Option String)
    (byDate : String → Option AvailabilityItem) (selectedSlotId : String)
    (createResult : Except JsError CreatedBooking) : SubmitResult :=
  if jsFalsyStr userId then
    ⟨some ("Sign in required", "Please sign in before creating a booking."), false, none⟩
  else if jsFalsyStr serviceId then
    ⟨some ("Missing service", "Please try again."), false, none⟩
  else if jsFalsyStr vendorCompanyId then
    ⟨some ("Missing vendor", "This service is missing vendorCompanyId."), false, none⟩
  else if !hasSelectedEvent then
    ⟨some ("No Event", "Please select an event first."), false, none⟩
  else if jsFalsyStr selectedDate then
    ⟨some ("Select a date", "Please pick an available date."), false, none⟩
  else if unavailableGuard byDate (selectedDate.getD "") then
    ⟨some ("Unavailable", "This date is not available."), false, none⟩
  else
    match findBookingWindow byDate selectedDate selectedSlotId with
    | none => ⟨some ("Select time", "Please select a valid time slot."), false, none⟩
    | some _ =>
      match createResult with
      | .error e =>
        ⟨some ("Booking failed", e.message.getD "Please try again."), false, none⟩
      | .ok created =>
        match created.bookingId with
        | some bid => ⟨none, true, some (NavTarget.bookingDetails bid)⟩
        | none => ⟨none, true, some NavTarget.bookings⟩

/-- Whether a run of `submitBooking` raised the `'Unavailable'` alert. -/
def alertsUnavailable (r : SubmitResult) : Bool :=
  match r.alert with
  | some p => p.1 == "Unavailable"
  | none => false

/-- `retry` option of the services query in `ServiceDetailsScreen`
(`ServiceDetailsScreen.tsx` line 160). -/
def servicesQueryRetry : Nat := 1

/-- `retry` option of the bookings query in `BookingsScreen`
(`src/unnamed/part_007` line 66). -/
def bookingsMyQueryRetry : Nat := 1

/-- Modelled from the spec: the underlying data-fetching library's numeric
`retry` option — a failing query is retried at most that many times after its
first attempt, and a success stops further attempts. `succeeds n` says whether
attempt `n` succeeds; the result counts the attempts actually made within the
given budget. (The retry loop itself lives in the external library, not in
this repository.) -/
def attemptsUsed (succeeds : Nat → Bool) : Nat → Nat
  | 0 => 0
  | budget + 1 =>
    if succeeds 0 then 1 else 1 + attemptsUsed (fun n => succeeds (n + 1)) budget

/-- Attempts made for a query configured with `retry: retryCfg`: one initial
attempt plus at most `retryCfg` retries. -/
def totalAttempts (retryCfg : Nat) (succeeds : Nat → Bool) : Nat :=
  attemptsUsed succeeds (retryCfg + 1)

/-- Unfolding of one round of the offset-correcting loop. -/
theorem zonedLoop_succ (naive : Int) (ofn : Int → Int) (n : Nat) (guess : Int) :
    zonedLoop naive ofn (n + 1) guess =
      if (naive - ofn guess * 60000 - guess).natAbs < 1000 then naive - ofn guess * 60000
      else zonedLoop naive ofn n (naive - ofn guess * 60000) := rfl

/-- C1: `zonedWallTimeToUtcIso` starts from the naive UTC reading of the
wall-clock components and iteratively (at most 3 rounds) subtracts the zone's
offset at the current guess, stopping when successive guesses differ by less
than 1000 ms; for a time zone whose offset is a constant `o` minutes the result
is the naive UTC reading minus `o * 60000` ms, and `addMinutesIso` then adds
`m * 60000` ms to that instant. -/
theorem zonedWallTimeToUtc_constant_offset (naive o m : Int) (ofn : Int → Int)
    (hconst : ∀ t, ofn t = o) :
    zonedWallTimeToUtcMs naive ofn = naive - o * 60000 ∧
    addMinutesIsoMs (zonedWallTimeToUtcMs naive ofn) m = naive - o * 60000 + m * 60000 := by
  have hfix : ∀ n : Nat, zonedLoop naive ofn (n + 1) (naive - o * 60000) = naive - o * 60000 := by
    intro n
    rw [zonedLoop_succ, hconst]
    simp
  have hmain : zonedWallTimeToUtcMs naive ofn = naive - o * 60000 := by
    unfold zonedWallTimeToUtcMs
    rw [show (3 : Nat) = 2 + 1 from rfl, zonedLoop_succ, hconst]
    split
    · rfl
    · exact hfix 1
  exact ⟨hmain, by rw [addMinutesIsoMs, hmain]⟩

/-- Witness for C1 at a zone of constant offset 480 minutes (UTC+8) and a
90-minute slot duration. -/
theorem zonedWallTimeToUtc_constant_offset_witness :
    zonedWallTimeToUtcMs 0 (fun _ => 480) = 0 - 480 * 60000 ∧
    addMinutesIsoMs (zonedWallTimeToUtcMs 0 (fun _ => 480)) 90 =
      0 - 480 * 60000 + 90 * 60000 :=
  zonedWallTimeToUtc_constant_offset 0 480 90 (fun _ => 480) (fun _ => rfl)

/-- C3 counterexample: with the default 15000 ms timeout (the parse of
`'15000'`), the fetch wrapper aborts a request still in flight at 15000 ms, so
it is not the case that the wrapper never aborts an in-flight request on its
own initiative. -/
theorem fetchWithTimeout_aborts_at_default_timeout :
    fetchWithTimeoutAborts (JSNum.fin defaultTrpcTimeoutMs) 15000 = true := by decide

/-- C3 amended: the client's own fetch wrapper aborts an in-flight request on
its own initiative exactly when the configured timeout is a finite positive
number of milliseconds `v` and the request is still in flight after `v` ms;
with a non-finite or non-positive timeout it never aborts. -/
theorem fetchWithTimeout_abort_characterization (t : JSNum) (d : Int) :
    fetchWithTimeoutAborts t d = true ↔ ∃ v, t = JSNum.fin v ∧ 0 < v ∧ v ≤ d := by
  cases t with
  | fin v =>
    simp only [fetchWithTimeoutAborts]
    by_cases h : v ≤ 0
    · simp only [h, if_true]
      constructor
      · intro hfalse; exact absurd hfalse (by simp)
      · rintro ⟨w, hw, hpos, _⟩
        cases hw
        omega
    · simp only [h, if_false, decide_eq_true_eq]
      constructor
      · intro hle; exact ⟨v, rfl, by omega, hle⟩
      · rintro ⟨w, hw, _, hle⟩
        cases hw
        exact hle
  | nan => simp [fetchWithTimeoutAborts]
  | posInf => simp [fetchWithTimeoutAborts]
  | negInf => simp [fetchWithTimeoutAborts]

/-- C4: the request headers function reads the in-memory auth store's
`accessToken`; with a token present it returns exactly the single
`Authorization: Bearer <token>` header, and with no token present (absent or
empty) it returns the empty header object. -/
theorem trpcHeaders_bearer (tok : String) (h : tok ≠ "") :
    trpcHeaders none = [] ∧ trpcHeaders (some "") = [] ∧
    trpcHeaders (some tok) = [("Authorization", "Bearer " ++ tok)] := by
  refine ⟨rfl, rfl, ?_⟩
  simp [trpcHeaders, jsFalsyStr, h]

/-- Witness for C4 at the token `tok1`. -/
theorem trpcHeaders_bearer_witness :
    "tok1" ≠ "" ∧
    (trpcHeaders none = [] ∧ trpcHeaders (some "") = [] ∧
      trpcHeaders (some "tok1") = [("Authorization", "Bearer " ++ "tok1")]) :=
  ⟨by decide, trpcHeaders_bearer "tok1" (by decide)⟩

/-- C9: the non-finite branch of `formatCurrency` does not return the em dash
`—` (U+2014) the claim describes: the source file's string literal is the
double-encoded three-character sequence U+00E2 U+20AC U+201D, so
`formatCurrency(undefined)` (and every other non-finite argument) returns that
mojibake string instead. -/
theorem formatCurrency_mojibake_dash :
    formatCurrency (fun _ => "") JSAmount.undef = "â€”" ∧
    formatCurrency (fun _ => "") JSAmount.nan = "â€”" ∧ "â€”" ≠ "—" :=
  ⟨rfl, rfl, by decide⟩

/-- C10: in the booking modal's 30-day strip, pressing a day whose local
`YYYY-MM-DD` string is lexicographically before today's leaves `selectedDate`
unchanged, and pressing today or a future day sets `selectedDate` to that
day's string. -/
theorem dayStripPress_past_guard (todayYmd ymd : String) (sel : Option String) :
    (ymd.data < todayYmd.data → dayStripPress todayYmd ymd sel = sel) ∧
    (¬ ymd.data < todayYmd.data → dayStripPress todayYmd ymd sel = some ymd) := by
  constructor <;> intro h <;> simp [dayStripPress, h]

/-- C2: the `'Unavailable'` alert branch of `submitBooking` is unreachable:
the guard `has(selectedDate) && !get(selectedDate)` is false for every
availability map and date, because a present entry is a truthy object whatever
its `available` field; hence no run of `submitBooking` ever raises the
`'Unavailable'` alert, even for a date whose entry has `available` set to
false. -/
theorem unavailableAlert_unreachable :
    (∀ (byDate : String → Option AvailabilityItem) (d : String),
      unavailableGuard byDate d = false) ∧
    ∀ (userId serviceId vendorCompanyId : Option String) (hasEvt : Bool)
      (selectedDate : Option String) (byDate : String → Option AvailabilityItem)
      (slot : String) (res : Except JsError CreatedBooking),
      alertsUnavailable
        (submitBooking userId serviceId vendorCompanyId hasEvt selectedDate byDate slot res)
        = false := by
  have hguard : ∀ (byDate : String → Option AvailabilityItem) (d : String),
      unavailableGuard byDate d = false := by
    intro byDate d
    simp [unavailableGuard]
  refine ⟨hguard, ?_⟩
  intro userId serviceId vendorCompanyId hasEvt selectedDate byDate slot res
  unfold submitBooking
  split_ifs with h1 h2 h3 h4 h5 h6 <;> try rfl
  · rw [hguard] at h6
    exact absurd h6 (by simp)
  · cases findBookingWindow byDate selectedDate slot with
    | none => rfl
    | some w =>
      cases res with
      | error e => rfl
      | ok created =>
        obtain ⟨bid⟩ := created
        cases bid <;> rfl

/-- C5: `filteredBookings` contains exactly the bookings matching both the
status filter (`all` matches everything, `cancelled` also matches the spelling
`canceled`) and, when the trimmed lower-cased search text is nonempty, whose
haystack of identifying fields contains that text as a substring. -/
theorem filteredBookings_membership (bookings : List BookingListItem)
    (search statusFilter : String) (item : BookingListItem) :
    item ∈ filteredBookings bookings search statusFilter ↔
      item ∈ bookings ∧ matchesStatus statusFilter item = true ∧
        (jsToLower (jsTrim search) = "" ∨
          strContainsSub (haystackOf item) (jsToLower (jsTrim search)) = true) := by
  unfold filteredBookings
  rw [List.mem_filter]
  refine and_congr_right (fun _ => ?_)
  unfold bookingPasses
  by_cases h1 : matchesStatus statusFilter item = true
  · by_cases h2 : jsToLower (jsTrim search) = ""
    · simp [h1, h2]
    · simp [h1, h2]
  · simp [h1]

/-- C6: when the `createBooking` call rejects, `submitBooking` surfaces a
modal alert titled `'Booking failed'` whose body is the error's message (or
`'Please try again.'` when absent), performs no navigation, and does not close
the booking modal. -/
theorem submitBooking_error_shows_alert
    (userId serviceId vendorCompanyId selectedDate : Option String)
    (byDate : String → Option AvailabilityItem) (slot : String) (w : BookingWindow)
    (e : JsError)
    (h1 : jsFalsyStr userId = false) (h2 : jsFalsyStr serviceId = false)
    (h3 : jsFalsyStr vendorCompanyId = false) (h4 : jsFalsyStr selectedDate = false)
    (h5 : findBookingWindow byDate selectedDate slot = some w) :
    submitBooking userId serviceId vendorCompanyId true selectedDate byDate slot
        (Except.error e) =
      ⟨some ("Booking failed", e.message.getD "Please try again."), false, none⟩ := by
  unfold submitBooking
  simp [h1, h2, h3, h4, h5, unavailableGuard]

/-- Witness for C6: with every guard satisfied and a matching window, a
rejection with message `boom` produces the Booking failed alert, no
navigation, and an open modal. -/
theorem submitBooking_error_shows_alert_witness :
    jsFalsyStr (some "u1") = false ∧ jsFalsyStr (some "s1") = false ∧
    jsFalsyStr (some "v1") = false ∧ jsFalsyStr (some "2026-01-02") = false ∧
    findBookingWindow
      (fun d => if d == "2026-01-02" then
        some ⟨"2026-01-02", false, some [⟨"slotA", "slotB"⟩]⟩ else none)
      (some "2026-01-02") "slotA" = some ⟨"slotA", "slotB"⟩ ∧
    submitBooking (some "u1") (some "s1") (some "v1") true (some "2026-01-02")
      (fun d => if d == "2026-01-02" then
        some ⟨"2026-01-02", false, some [⟨"slotA", "slotB"⟩]⟩ else none)
      "slotA" (Except.error ⟨some "boom"⟩) =
      ⟨some ("Booking failed", "boom"), false, none⟩ :=
  ⟨rfl, rfl, rfl, rfl, rfl,
    submitBooking_error_shows_alert (some "u1") (some "s1") (some "v1") (some "2026-01-02")
      (fun d => if d == "2026-01-02" then
        some ⟨"2026-01-02", false, some [⟨"slotA", "slotB"⟩]⟩ else none)
      "slotA" ⟨"slotA", "slotB"⟩ ⟨some "boom"⟩ rfl rfl rfl rfl rfl⟩

/-- C7: `getServiceImages` returns the service's usable image URLs, except
that a first usable URL hosted at placehold.co together with a matching
category pattern yields only that category's fallback URL; with no usable URLs
it returns the category fallback when the name matches and the empty list
otherwise; and the service-details gallery renders the fixed Unsplash
placeholder whenever `getServiceImages` returns no images. -/
theorem getServiceImages_fallback_rules :
    (∀ (s : ServiceImageSource) (u : String) (rest : List String) (f : String),
        usableImages s = u :: rest → hostOf u = some "placehold.co" →
        fallbackFor (s.name.getD "") = some f → getServiceImages s = [f]) ∧
    (∀ (s : ServiceImageSource) (u : String) (rest : List String),
        usableImages s = u :: rest →
        (hostOf u ≠ some "placehold.co" ∨ fallbackFor (s.name.getD "") = none) →
        getServiceImages s = usableImages s) ∧
    (∀ s : ServiceImageSource, usableImages s = [] →
        getServiceImages s = (fallbackFor (s.name.getD "")).toList) ∧
    (∀ s : ServiceImageSource, getServiceImages s = [] →
        galleryOf (some s) = [unsplashHotelFallback]) := by
  refine ⟨?_, ?_, ?_, ?_⟩
  · intro s u rest f hu hh hf
    simp [getServiceImages, hu, hh, hf]
  · intro s u rest hu hcase
    rcases hcase with hh | hf
    · simp [getServiceImages, hu, hh]
    · simp [getServiceImages, hu, hf]
  · intro s hu
    simp [getServiceImages, hu]
  · intro s himg
    simp [galleryOf, himg]

/-- Witness for C7: a placehold.co image on a photo-booth service is replaced
by the category fallback, and a service with no images and no matching
category renders the Unsplash placeholder. -/
theorem getServiceImages_fallback_rules_witness :
    usableImages ⟨some "Photo Booth", some ["https://placehold.co/600x400?text=Hi"]⟩ =
      "https://placehold.co/600x400?text=Hi" :: [] ∧
    hostOf "https://placehold.co/600x400?text=Hi" = some "placehold.co" ∧
    fallbackFor "Photo Booth" =
      some "https://images.unsplash.com/photo-1529694157877-6f8bfc48757f?auto=format&fit=crop&w=1200&q=80" ∧
    getServiceImages ⟨some "Photo Booth", some ["https://placehold.co/600x400?text=Hi"]⟩ =
      ["https://images.unsplash.com/photo-1529694157877-6f8bfc48757f?auto=format&fit=crop&w=1200&q=80"] ∧
    getServiceImages ⟨some "Catering", some []⟩ = [] ∧
    galleryOf (some ⟨some "Catering", some []⟩) = [unsplashHotelFallback] :=
  ⟨by decide, by decide, by decide,
    getServiceImages_fallback_rules.1
      ⟨some "Photo Booth", some ["https://placehold.co/600x400?text=Hi"]⟩
      "https://placehold.co/600x400?text=Hi" []
      "https://images.unsplash.com/photo-1529694157877-6f8bfc48757f?auto=format&fit=crop&w=1200&q=80"
      (by decide) (by decide) (by decide),
    by decide,
    getServiceImages_fallback_rules.2.2.2 ⟨some "Catering", some []⟩ (by decide)⟩

/-- Bound on the retry-loop model: the number of attempts made never exceeds
the budget. -/
theorem attemptsUsed_le (budget : Nat) :
    ∀ succeeds : Nat → Bool, attemptsUsed succeeds budget ≤ budget := by
  induction budget with
  | zero => intro succeeds; simp [attemptsUsed]
  | succ b ih =>
    intro succeeds
    unfold attemptsUsed
    split
    · omega
    · have := ih (fun n => succeeds (n + 1))
      omega

/-- C8: the service-list query and the user's bookings query are each
configured with `retry: 1`, so a failing call makes at most two attempts in
total — one retry beyond the initial attempt, and no further retries. -/
theorem lowRetryOnQueries :
    servicesQueryRetry = 1 ∧ bookingsMyQueryRetry = 1 ∧
    (∀ succeeds : Nat → Bool, totalAttempts servicesQueryRetry succeeds ≤ 2) ∧
    (∀ succeeds : Nat → Bool, totalAttempts bookingsMyQueryRetry succeeds ≤ 2) := by
  refine ⟨rfl, rfl, ?_, ?_⟩ <;> intro succeeds <;>
    simpa [totalAttempts, servicesQueryRetry, bookingsMyQueryRetry] using
      attemptsUsed_le 2 succeeds

/-- Witness for C10: a past day keeps the selection, a future day replaces
it. -/
theorem dayStripPress_past_guard_witness :
    "2026-10-11".data < "2026-10-12".data ∧
    dayStripPress "2026-10-12" "2026-10-11" (some "2026-10-20") = some "2026-10-20" ∧
    ¬ "2026-10-15".data < "2026-10-12".data ∧
    dayStripPress "2026-10-12" "2026-10-15" none = some "2026-10-15" :=
  ⟨by decide,
   (dayStripPress_past_guard "2026-10-12" "2026-10-11" (some "2026-10-20")).1 (by decide),
   by decide,
   (dayStripPress_past_guard "2026-10-12" "2026-10-15" none).2 (by decide)⟩
